import Mathlib

/-!
Verification development for the `dataplex-agent` / `dataproc-agent` tool
functions.  The Python tool functions are embedded shallowly: dictionaries
become ordered association lists, the remote service call becomes an explicit
`Except`-valued parameter, in-place mutation of a caller-supplied dictionary
becomes a function from the pre-state to the post-state, and each `try/except`
ladder becomes a case analysis on the exception value.
-/

/-! String helpers, embedding Python's `str.lower`, `str.replace` and `in`. -/

/-- Embedding of Python's `str.lower()` (character-wise lowering). -/
def lowerStr (s : String) : String := String.mk (s.data.map Char.toLower)

/-- Embedding of Python's `str.replace(a, b)` for single-character patterns. -/
def replaceChar (s : String) (a b : Char) : String :=
  String.mk (s.data.map (fun c => if c = a then b else c))

/-- Does the first character list start with the second? -/
def startsWithL : List Char → List Char → Bool
  | [], _ => true
  | _ :: _, [] => false
  | a :: as, b :: bs => a = b && startsWithL as bs

/-- Does the character list contain `needle` as a contiguous sublist? -/
def hasSubL (needle : List Char) : List Char → Bool
  | [] => needle.isEmpty
  | c :: rest => startsWithL needle (c :: rest) || hasSubL needle rest

/-- Embedding of Python's substring test `needle in hay` on strings. -/
def strContains (hay needle : String) : Bool := hasSubL needle.data hay.data

/-! Python values and dictionaries. -/

/-- A Python value as it occurs in the tool functions' configuration
dictionaries and results: strings, integers, booleans, (ordered)
dictionaries with string keys, and lists. -/
inductive PyVal where
  | str : String → PyVal
  | int : Int → PyVal
  | bool : Bool → PyVal
  | dict : List (String × PyVal) → PyVal
  | list : List PyVal → PyVal
deriving Repr

/-- A Python dictionary with string keys, as an insertion-ordered
association list (Python dicts preserve insertion order). -/
abbrev Dict := List (String × PyVal)

/-- Dictionary lookup, `d[k]` / `d.get(k)`: the value at the first matching
key. -/
def lookup : Dict → String → Option PyVal
  | [], _ => none
  | (k, v) :: rest, key => if k = key then some v else lookup rest key

/-- Embedding of Python's `k in d` key test. -/
def containsKey (d : Dict) (k : String) : Bool := (lookup d k).isSome

/-- Embedding of `d.pop(k)`'s removal effect: the dictionary without key
`k`, other entries keeping their order. -/
def removeKey : Dict → String → Dict
  | [], _ => []
  | (k, v) :: rest, key =>
    if k = key then removeKey rest key else (k, v) :: removeKey rest key

/-- Embedding of the assignment `d[k] = v`: replace the value in place if
the key exists, otherwise append the new entry at the end. -/
def setKey : Dict → String → PyVal → Dict
  | [], key, val => [(key, val)]
  | (k, v) :: rest, key, val =>
    if k = key then (key, val) :: rest else (k, v) :: setKey rest key val

/-- Embedding of Python truthiness for the values that occur in the job
configuration dictionaries. -/
def truthy : PyVal → Bool
  | .str s => s ≠ ""
  | .int n => n ≠ 0
  | .bool b => b
  | .dict d => !d.isEmpty
  | .list l => !l.isEmpty

/-- Embedding of Python's `t in xs` for a string `t` and a list value
(`==` against each element; only string elements can match). -/
def listHasStr (xs : List PyVal) (t : String) : Bool :=
  xs.any fun v => match v with | .str s => s = t | _ => false

/-! Reserved-word rename, `type` → `type_`.

Source: `dataplex_service_tools.py`.  `create_dataplex_zone` /
`update_dataplex_zone` run

  `if 'type' in zone_details: zone_details['type_'] = zone_details.pop('type')`

and `create_dataplex_asset` / `update_dataplex_asset` (resp. the task
functions) run

  `if 'resource_spec' in d and 'type' in d['resource_spec']:
       d['resource_spec']['type_'] = d['resource_spec'].pop('type')`

with `'trigger_spec'` in place of `'resource_spec'` for tasks.  The rename
mutates the caller's dictionary in place; we model it as pre-state →
post-state.  When the sub-object's value is not a dictionary, Python's `in`
and `.pop` raise, which the surrounding `except Exception` converts to an
error dictionary; the `Except` result records that. -/

/-- Top-level rename performed by the zone functions:
`if 'type' in d: d['type_'] = d.pop('type')`. -/
def renameTypeTop (d : Dict) : Dict :=
  match lookup d "type" with
  | some v => setKey (removeKey d "type") "type_" v
  | none => d

/-- Nested rename performed by the asset functions (`sub = "resource_spec"`)
and the task functions (`sub = "trigger_spec"`):
`if sub in d and 'type' in d[sub]: d[sub]['type_'] = d[sub].pop('type')`.
A non-dictionary value under `sub` makes Python's `in` / `.pop` raise; the
error message is the exception's text. -/
def renameTypeInSub (sub : String) (d : Dict) : Except String Dict :=
  match lookup d sub with
  | none => .ok d
  | some (.dict inner) =>
    match lookup inner "type" with
    | none => .ok d
    | some v => .ok (setKey d sub (.dict (setKey (removeKey inner "type") "type_" v)))
  | some (.str s) =>
    if strContains s "type" then
      .error "AttributeError: str object has no attribute pop"
    else .ok d
  | some (.list xs) =>
    if listHasStr xs "type" then
      .error "TypeError: str object cannot be interpreted as an integer"
    else .ok d
  | some (.int _) => .error "TypeError: argument of type int is not iterable"
  | some (.bool _) => .error "TypeError: argument of type bool is not iterable"

/-- The zone payload passed to `dataplex_v1.Zone(**zone_details)` in
`create_dataplex_zone`, after the reserved-word rename. -/
def create_dataplex_zone_payload (zone_details : Dict) : Dict :=
  renameTypeTop zone_details

/-- The asset payload passed to `dataplex_v1.Asset(**asset_details)` in
`create_dataplex_asset`, after the nested reserved-word rename. -/
def create_dataplex_asset_payload (asset_details : Dict) : Except String Dict :=
  renameTypeInSub "resource_spec" asset_details

/-- The task payload passed to `dataplex_v1.Task(**task_details)` in
`create_dataplex_task`, after the nested reserved-word rename. -/
def create_dataplex_task_payload (task_details : Dict) : Except String Dict :=
  renameTypeInSub "trigger_spec" task_details

/-- The caller's `zone_details` dictionary after `create_dataplex_zone`
returns: the rename uses in-place `pop`/assignment on the caller's object,
so the post-state equals the translated payload. -/
def create_dataplex_zone_config_after (zone_details : Dict) : Dict :=
  create_dataplex_zone_payload zone_details

/-- The caller's `asset_details` dictionary after `create_dataplex_asset`
returns (when the rename step itself did not raise): the in-place mutation
makes it equal the translated payload. -/
def create_dataplex_asset_config_after (asset_details : Dict) : Except String Dict :=
  create_dataplex_asset_payload asset_details

/-- The caller's `task_details` dictionary after `create_dataplex_task`
returns (when the rename step itself did not raise). -/
def create_dataplex_task_config_after (task_details : Dict) : Except String Dict :=
  create_dataplex_task_payload task_details

/-! Exceptions of the Google client libraries, as the handlers see them. -/

/-- The exceptions the tool functions distinguish.  `notFound` and
`invalidArgument` are the namesake `google.api_core` classes (HTTP 404 and
400); `googleApiCallError` is any other `GoogleAPICallError` subclass with
its HTTP code; the remaining constructors are plain Python exceptions.
Each carries the `e.message` text and the `str(e)` text where the handlers
use both. -/
inductive PyExn where
  | notFound (message strRepr : String)
  | invalidArgument (message strRepr : String)
  | googleApiCallError (code : Nat) (message strRepr : String)
  | valueError (message : String)
  | nameError (ident : String)
  | otherExn (message : String)
deriving Repr, DecidableEq

/-- Does `except NotFound` catch this exception? -/
def PyExn.isNotFound : PyExn → Bool
  | .notFound _ _ => true
  | _ => false

/-- Does `except InvalidArgument` catch this exception? -/
def PyExn.isInvalidArgument : PyExn → Bool
  | .invalidArgument _ _ => true
  | _ => false

/-- Does `except GoogleAPICallError` (or the `GoogleAPIError` base class)
catch this exception?  `NotFound` and `InvalidArgument` are subclasses. -/
def PyExn.isGoogleApiCallError : PyExn → Bool
  | .notFound _ _ => true
  | .invalidArgument _ _ => true
  | .googleApiCallError _ _ _ => true
  | _ => false

/-- The HTTP status code `e.code` of an API exception (`NotFound` is 404,
`InvalidArgument` is 400). -/
def PyExn.code : PyExn → Nat
  | .notFound _ _ => 404
  | .invalidArgument _ _ => 400
  | .googleApiCallError c _ _ => c
  | _ => 0

/-- The `e.message` text used by the API-error branches. -/
def PyExn.message : PyExn → String
  | .notFound m _ => m
  | .invalidArgument m _ => m
  | .googleApiCallError _ m _ => m
  | .valueError m => m
  | .nameError n => "name " ++ n ++ " is not defined"
  | .otherExn m => m

/-- The `str(e)` text used by the `except Exception` branches and by the
cancel function's message inspection. -/
def PyExn.strRepr : PyExn → String
  | .notFound _ r => r
  | .invalidArgument _ r => r
  | .googleApiCallError _ _ r => r
  | .valueError m => m
  | .nameError n => "name " ++ n ++ " is not defined"
  | .otherExn m => m

/-! Long-running operations and call traces. -/

/-- A long-running-operation handle as `_handle_lro` inspects it:
`operation.exception()` (string of the exception when truthy),
`operation.operation.name` and `str(operation.metadata)`. -/
structure Operation where
  exn : Option String
  opName : String
  metadata : String
deriving Repr, DecidableEq

/-- Embedding of `_handle_lro(operation, operation_description)`. -/
def handle_lro (op : Operation) (operation_description : String) : PyVal :=
  match op.exn with
  | some e =>
    .dict [("error", .str ("Error during " ++ operation_description ++ ": " ++ e))]
  | none =>
    .dict [("status", .str "pending"),
           ("operation_name", .str op.opName),
           ("metadata", .str op.metadata)]

/-- Observable trace of one tool-function call: the resource path placed in
the request object (if one was constructed), whether the remote call was
made, and the value returned to (or exception propagated to) the caller. -/
structure CallTrace where
  requestPath : Option String
  networkCalled : Bool
  result : Except PyExn PyVal
deriving Repr

/-! Resource path helpers.

The client's `common_location_path` / `lake_path` / `zone_path` /
`task_path` / `job_path` helpers are the standard GAPIC template
expansions, plain string formatting with no validation. -/

/-- `client.common_location_path(project, location)`. -/
def common_location_path (project location : String) : String :=
  "projects/" ++ project ++ "/locations/" ++ location

/-- `client.lake_path(project, location, lake)`. -/
def lake_path (project location lake : String) : String :=
  common_location_path project location ++ "/lakes/" ++ lake

/-- `client.zone_path(project, location, lake, zone)`. -/
def zone_path (project location lake zone : String) : String :=
  lake_path project location lake ++ "/zones/" ++ zone

/-- `client.task_path(project, location, lake, task)`. -/
def task_path (project location lake task : String) : String :=
  lake_path project location lake ++ "/tasks/" ++ task

/-- `client.job_path(project, location, lake, task, job)`. -/
def job_path (project location lake task job : String) : String :=
  task_path project location lake task ++ "/jobs/" ++ job

/-! Dataplex service tool functions.

Each function takes the outcomes of the steps that can raise as explicit
parameters: `clientExn` for the client constructor, `constructExn` for the
proto-object construction, and `remote` for the network call. -/

/-- The `except` ladder of `get_dataplex_lake`. -/
def get_lake_error_dict (lake_id : String) (e : PyExn) : PyVal :=
  if e.isNotFound then .dict [("error", .str ("Lake not found: " ++ lake_id))]
  else if e.isGoogleApiCallError then
    .dict [("error", .str ("API Error getting lake: " ++ e.message))]
  else .dict [("error", .str ("Unexpected error getting lake: " ++ e.strRepr))]

/-- Embedding of `get_dataplex_lake`: build `lake_path`, construct the
`GetLakeRequest`, call `get_lake`, return `MessageToDict` of the response
(the `remote` parameter) or the ladder's error dictionary. -/
def get_dataplex_lake_run (project_id location lake_id : String)
    (clientExn : Option PyExn) (remote : Except PyExn Dict) : CallTrace :=
  match clientExn with
  | some e =>
    { requestPath := none, networkCalled := false,
      result := .ok (get_lake_error_dict lake_id e) }
  | none =>
    { requestPath := some (lake_path project_id location lake_id),
      networkCalled := true,
      result := .ok (match remote with
        | .ok lakeDict => .dict lakeDict
        | .error e => get_lake_error_dict lake_id e) }

/-- The `except` ladder of `create_dataplex_lake` (`InvalidArgument`, then
`GoogleAPICallError`, then `Exception`). -/
def create_lake_error_dict (e : PyExn) : PyVal :=
  if e.isInvalidArgument then .dict [("error", .str ("Invalid argument: " ++ e.message))]
  else if e.isGoogleApiCallError then
    .dict [("error", .str ("API Error creating lake: " ++ e.message))]
  else .dict [("error", .str ("Unexpected error creating lake: " ++ e.strRepr))]

/-- Embedding of `create_dataplex_lake`: build the parent path, construct
`dataplex_v1.Lake(lake_details)` (whose failure is `constructExn`), send
the `CreateLakeRequest`, and pass the operation to `_handle_lro`. -/
def create_dataplex_lake_run (project_id location lake_id : String)
    (lake_details : Dict) (clientExn constructExn : Option PyExn)
    (remote : Except PyExn Operation) : CallTrace :=
  match clientExn with
  | some e =>
    { requestPath := none, networkCalled := false,
      result := .ok (create_lake_error_dict e) }
  | none =>
    match constructExn with
    | some e =>
      { requestPath := none, networkCalled := false,
        result := .ok (create_lake_error_dict e) }
    | none =>
      { requestPath := some (common_location_path project_id location),
        networkCalled := true,
        result := .ok (match remote with
          | .ok op => handle_lro op ("lake creation for '" ++ lake_id ++ "'")
          | .error e => create_lake_error_dict e) }

/-- The `except` ladder of `create_dataplex_asset`. -/
def create_asset_error_dict (e : PyExn) : PyVal :=
  if e.isInvalidArgument then .dict [("error", .str ("Invalid argument: " ++ e.message))]
  else if e.isGoogleApiCallError then
    .dict [("error", .str ("API Error creating asset: " ++ e.message))]
  else .dict [("error", .str ("Unexpected error creating asset: " ++ e.strRepr))]

/-- Embedding of `create_dataplex_asset`: parent `zone_path`, nested
reserved-word rename, `dataplex_v1.Asset(**asset_details)` construction
(`constructExn`), then `create_asset` and `_handle_lro`.  A rename failure
is an in-`try` exception caught by `except Exception`. -/
def create_dataplex_asset_run (project_id location lake_id zone_id asset_id : String)
    (asset_details : Dict) (clientExn constructExn : Option PyExn)
    (remote : Except PyExn Operation) : CallTrace :=
  match clientExn with
  | some e =>
    { requestPath := none, networkCalled := false,
      result := .ok (create_asset_error_dict e) }
  | none =>
    match create_dataplex_asset_payload asset_details with
    | .error msg =>
      { requestPath := none, networkCalled := false,
        result := .ok (.dict [("error", .str ("Unexpected error creating asset: " ++ msg))]) }
    | .ok _payload =>
      match constructExn with
      | some e =>
        { requestPath := none, networkCalled := false,
          result := .ok (create_asset_error_dict e) }
      | none =>
        { requestPath := some (zone_path project_id location lake_id zone_id),
          networkCalled := true,
          result := .ok (match remote with
            | .ok op =>
              handle_lro op ("asset creation for '" ++ asset_id ++ "' in zone '" ++ zone_id ++ "'")
            | .error e => create_asset_error_dict e) }

/-- The `except` ladder of `create_dataplex_task`. -/
def create_task_error_dict (e : PyExn) : PyVal :=
  if e.isInvalidArgument then .dict [("error", .str ("Invalid argument: " ++ e.message))]
  else if e.isGoogleApiCallError then
    .dict [("error", .str ("API Error creating task: " ++ e.message))]
  else .dict [("error", .str ("Unexpected error creating task: " ++ e.strRepr))]

/-- Embedding of `create_dataplex_task`: parent `lake_path`, nested
reserved-word rename on `trigger_spec`, `dataplex_v1.Task(**task_details)`
construction, then `create_task` and `_handle_lro`.  No presence check is
made for `spark`, `notebook` or `sql_script`. -/
def create_dataplex_task_run (project_id location lake_id task_id : String)
    (task_details : Dict) (clientExn constructExn : Option PyExn)
    (remote : Except PyExn Operation) : CallTrace :=
  match clientExn with
  | some e =>
    { requestPath := none, networkCalled := false,
      result := .ok (create_task_error_dict e) }
  | none =>
    match create_dataplex_task_payload task_details with
    | .error msg =>
      { requestPath := none, networkCalled := false,
        result := .ok (.dict [("error", .str ("Unexpected error creating task: " ++ msg))]) }
    | .ok _payload =>
      match constructExn with
      | some e =>
        { requestPath := none, networkCalled := false,
          result := .ok (create_task_error_dict e) }
      | none =>
        { requestPath := some (lake_path project_id location lake_id),
          networkCalled := true,
          result := .ok (match remote with
            | .ok op =>
              handle_lro op ("task creation for '" ++ task_id ++ "' in lake '" ++ lake_id ++ "'")
            | .error e => create_task_error_dict e) }

/-- Embedding of `cancel_dataplex_job`.  The remote `cancel_job` call
returns `None` on success; on a `GoogleAPICallError` with `e.code == 400`
whose `str(e).lower()` contains `"invalid state"` or `"terminal state"`,
the function returns the terminal-state message instead of the generic
API-error message. -/
def cancel_dataplex_job (project_id location lake_id task_id job_id : String)
    (remote : Except PyExn Unit) : PyVal :=
  match remote with
  | .ok _ => .dict [("status", .str "cancellation_requested")]
  | .error e =>
    if e.isNotFound then
      .dict [("error", .str ("Job not found for cancellation: " ++ job_id))]
    else if e.isGoogleApiCallError then
      if e.code == 400
          && (strContains (lowerStr e.strRepr) "invalid state"
              || strContains (lowerStr e.strRepr) "terminal state") then
        .dict [("error", .str ("Job " ++ job_id ++ " is already in a terminal state."))]
      else
        .dict [("error", .str ("API Error cancelling job: " ++ e.message))]
    else
      .dict [("error", .str ("Unexpected error cancelling job: " ++ e.strRepr))]

/-! Catalog search and the Lichess tool. -/

/-- Embedding of `search_dataplex_catalog` (`catalog_service_tools.py`).
The empty-argument check `if not all([project_id, location_id, query])`
raises `ValueError` outside the `try` block, so it propagates; both
`except` branches return a plain empty list. -/
def search_dataplex_catalog (project_id location_id query : String)
    (remote : Except PyExn (List Dict)) : Except PyExn PyVal :=
  if project_id = "" ∨ location_id = "" ∨ query = "" then
    .error (.valueError "project_id, location_id, and query must be provided.")
  else
    match remote with
    | .ok entries => .ok (.list (entries.map PyVal.dict))
    | .error _ => .ok (.list [])

/-- Embedding of `get_lichess_rating` (`dataproc-agent` `common_tools.py`):
no `try/except` at all, so any exception from the HTTP fetch or JSON
parsing (the `remote` parameter) propagates; on success the function
returns the `'perfs'` entry, raising `KeyError` when it is absent. -/
def get_lichess_rating (username : String)
    (remote : Except PyExn Dict) : Except PyExn PyVal :=
  match remote with
  | .error e => .error e
  | .ok userJson =>
    match lookup userJson "perfs" with
    | some v => .ok v
    | none => .error (.otherExn "KeyError: perfs")

/-- Is the returned value error-shaped: a dictionary carrying an `error`
key, or a list containing such a dictionary? -/
def hasErrorKey : PyVal → Bool
  | .dict d => containsKey d "error"
  | .list xs => xs.any fun v => match v with | .dict d => containsKey d "error" | _ => false
  | _ => false

/-! Dataproc job submission. -/

/-- The module-level names defined in `dataproc-agent/utils/common_tools.py`
when it is imported: its imports and its own definitions.  `job_client` is
not among them — `initialize_clients` only returns clients, and no
module-level assignment exists. -/
def dataproc_common_tools_globals : List String :=
  ["uuid", "dataproc", "NotFound", "GoogleAPICallError", "Duration",
   "Optional", "List", "Dict", "MessageToDict",
   "initialize_clients", "_parse_cluster_response", "_parse_job_response",
   "submit_dataproc_job", "get_current_time", "get_lichess_rating"]

/-- The `supported_job_fields` list in `submit_dataproc_job`. -/
def supported_job_fields : List String :=
  ["hadoop_job", "spark_job", "pyspark_job", "hive_job", "pig_job",
   "spark_r_job", "spark_sql_job", "presto_job", "trino_job"]

/-- Observable trace of one `submit_dataproc_job` call. -/
structure SubmitTrace where
  validationPerformed : Bool
  networkCalled : Bool
  result : Except PyExn PyVal
deriving Repr

/-- Embedding of `submit_dataproc_job`.  The first statement,
`if not job_client:`, resolves the global name `job_client`; when the name
is not in the module's globals this raises `NameError` before any
validation or network access.  The later steps are modelled for the
hypothetical environment in which the name exists (`jobClientTruthy` is
the truthiness of its value; `job_uuid` the generated id fragment;
`remote` the `submit_job` outcome).  When `submit_job` raises, Python
evaluates the `except InvalidArgument` clause, whose name is also not
imported in this module, raising a further `NameError`. -/
def submit_dataproc_job_run (_project_id _region cluster_name job_type : String)
    (job_details : Dict) (job_id_pref : String) (globals : List String)
    (jobClientTruthy : Bool) (job_uuid : String)
    (remote : Except PyExn Dict) : SubmitTrace :=
  if "job_client" ∈ globals then
    if !jobClientTruthy then
      { validationPerformed := false, networkCalled := false,
        result := .ok (.dict [("error", .str "Dataproc job client not initialized.")]) }
    else
      let job_type_cleaned := replaceChar (lowerStr job_type) '-' '_'
      let job_id := job_id_pref ++ "-" ++ job_type_cleaned ++ "-" ++ job_uuid
      let job_type_field := job_type_cleaned ++ "_job"
      if job_type_field ∉ supported_job_fields then
        { validationPerformed := true, networkCalled := false,
          result := .ok (.dict [("error",
            .str ("Unsupported job_type: '" ++ job_type ++ "'. Cleaned type '"
              ++ job_type_field ++ "' is invalid."))]) }
      else if job_type_field == "pyspark_job"
          && !containsKey job_details "main_python_file_uri" then
        { validationPerformed := true, networkCalled := false,
          result := .ok (.dict [("error",
            .str "Missing required key 'main_python_file_uri' in job_details for pyspark job.")]) }
      else if job_type_field == "spark_job"
          && !(containsKey job_details "main_class" || containsKey job_details "main_jar_file_uri") then
        { validationPerformed := true, networkCalled := false,
          result := .ok (.dict [("error",
            .str "Missing required key 'main_class' or 'main_jar_file_uri' in job_details for spark job.")]) }
      else if (job_type_field == "hive_job" || job_type_field == "pig_job"
            || job_type_field == "spark_sql_job")
          && !(containsKey job_details "query_file_uri"
               || (match lookup job_details "query_list" with
                   | some v => truthy v
                   | none => false)) then
        { validationPerformed := true, networkCalled := false,
          result := .ok (.dict [("error",
            .str ("Missing required key 'query_file_uri' or non-empty 'query_list' in job_details for "
              ++ job_type ++ " job."))]) }
      else
        let _payload : Dict :=
          setKey [("placement", .dict [("cluster_name", .str cluster_name)]),
                  ("reference", .dict [("job_id", .str job_id)])]
            job_type_field (.dict job_details)
        { validationPerformed := true, networkCalled := true,
          result := match remote with
            | .ok resp => .ok (.dict resp)
            | .error _ =>
              if "InvalidArgument" ∈ globals then .ok (.dict [("error", .str "unreachable")])
              else .error (.nameError "InvalidArgument") }
  else
    { validationPerformed := false, networkCalled := false,
      result := .error (.nameError "job_client") }

/-! Dataproc asynchronous cluster listing. -/

/-- The inner `async for` of `list_dataproc_clusters_async`: iterate a
fresh pager over the same request, appending each cluster's
`MessageToDict` to the accumulator. -/
def innerClusterLoop (clusters : List Dict) (acc : List PyVal) : List PyVal :=
  clusters.foldl (fun a c => a ++ [PyVal.dict c]) acc

/-- The nested loops of `list_dataproc_clusters_async`: the outer
`async for` iterates the pager once per cluster, and for each outer
element the inner loop appends every cluster again. -/
def list_dataproc_clusters_async_collect (clusters : List Dict) : List PyVal :=
  clusters.foldl (fun acc _c => innerClusterLoop clusters acc) []

/-- Embedding of `list_dataproc_clusters_async`
(`cluster_controller_tools.py`): the `remote` parameter is the cluster
collection the paginated stream yields; both `except` branches return a
one-element list holding an error dictionary. -/
def list_dataproc_clusters_async_run (remote : Except PyExn (List Dict)) : Except PyExn PyVal :=
  match remote with
  | .ok clusters => .ok (.list (list_dataproc_clusters_async_collect clusters))
  | .error e =>
    if e.isGoogleApiCallError then
      .ok (.list [.dict [("error", .str ("API Error listing clusters async: " ++ e.message))]])
    else
      .ok (.list [.dict [("error", .str ("Unexpected error listing clusters async: " ++ e.strRepr))]])

/-- A list repeated `n` times, for describing the duplicated iteration. -/
def repList : Nat → List PyVal → List PyVal
  | 0, _ => []
  | n + 1, m => m ++ repList n m

/-! Dictionary lemmas. -/

theorem lookup_setKey_self (d : Dict) (k : String) (v : PyVal) :
    lookup (setKey d k v) k = some v := by
  induction d with
  | nil => simp [setKey, lookup]
  | cons p rest ih =>
    obtain ⟨a, b⟩ := p
    by_cases h : a = k
    · simp [setKey, lookup, h]
    · simp [setKey, lookup, h, ih]

theorem lookup_setKey_ne (d : Dict) (k q : String) (v : PyVal) (h : k ≠ q) :
    lookup (setKey d k v) q = lookup d q := by
  induction d with
  | nil => simp [setKey, lookup, h]
  | cons p rest ih =>
    obtain ⟨a, b⟩ := p
    by_cases hak : a = k
    · subst hak; simp [setKey, lookup, h]
    · simp [setKey, lookup, hak, ih]

theorem lookup_removeKey_self (d : Dict) (k : String) :
    lookup (removeKey d k) k = none := by
  induction d with
  | nil => simp [removeKey, lookup]
  | cons p rest ih =>
    obtain ⟨a, b⟩ := p
    by_cases h : a = k <;> simp [removeKey, lookup, h, ih]

theorem lookup_removeKey_ne (d : Dict) (k q : String) (h : k ≠ q) :
    lookup (removeKey d k) q = lookup d q := by
  induction d with
  | nil => simp [removeKey]
  | cons p rest ih =>
    obtain ⟨a, b⟩ := p
    by_cases hak : a = k
    · subst hak
      have haq : a ≠ q := h
      simp [removeKey, lookup, haq, ih]
    · simp [removeKey, lookup, hak, ih]

/-! Lemmas about the reserved-word rename. -/

theorem lookup_renameTypeTop_type (d : Dict) :
    lookup (renameTypeTop d) "type" = none := by
  unfold renameTypeTop
  cases hv : lookup d "type" with
  | none => exact hv
  | some v =>
    rw [lookup_setKey_ne _ _ _ _ (by decide), lookup_removeKey_self]

theorem renameTypeTop_of_no_type (d : Dict) (h : lookup d "type" = none) :
    renameTypeTop d = d := by
  unfold renameTypeTop
  rw [h]

theorem renameTypeTop_idem (d : Dict) :
    renameTypeTop (renameTypeTop d) = renameTypeTop d :=
  renameTypeTop_of_no_type _ (lookup_renameTypeTop_type d)

theorem lookup_renameTypeTop_renamed (d : Dict) (v : PyVal)
    (h : lookup d "type" = some v) :
    lookup (renameTypeTop d) "type_" = some v := by
  unfold renameTypeTop
  rw [h]
  exact lookup_setKey_self _ _ _

theorem lookup_renameTypeTop_other (d : Dict) (q : String)
    (h1 : q ≠ "type") (h2 : q ≠ "type_") :
    lookup (renameTypeTop d) q = lookup d q := by
  unfold renameTypeTop
  cases hv : lookup d "type" with
  | none => rfl
  | some v =>
    rw [lookup_setKey_ne _ _ _ _ (Ne.symm h2), lookup_removeKey_ne _ _ _ (Ne.symm h1)]

theorem renameTypeInSub_lookup_other (sub : String) (d d2 : Dict) (q : String)
    (h : renameTypeInSub sub d = .ok d2) (hq : q ≠ sub) :
    lookup d2 q = lookup d q := by
  unfold renameTypeInSub at h
  split at h
  · simp only [Except.ok.injEq] at h
    subst h; rfl
  · split at h
    · simp only [Except.ok.injEq] at h
      subst h; rfl
    · simp only [Except.ok.injEq] at h
      subst h
      exact lookup_setKey_ne _ _ _ _ (Ne.symm hq)
  · split at h
    · simp at h
    · simp only [Except.ok.injEq] at h
      subst h; rfl
  · split at h
    · simp at h
    · simp only [Except.ok.injEq] at h
      subst h; rfl
  · simp at h
  · simp at h

theorem renameTypeInSub_idem (sub : String) (d d2 : Dict)
    (h : renameTypeInSub sub d = .ok d2) :
    renameTypeInSub sub d2 = .ok d2 := by
  unfold renameTypeInSub at h
  split at h
  case _ heq =>
    simp only [Except.ok.injEq] at h
    subst h
    unfold renameTypeInSub
    rw [heq]
  case _ inner heq =>
    split at h
    case _ htype =>
      simp only [Except.ok.injEq] at h
      subst h
      unfold renameTypeInSub
      rw [heq]
      simp only [htype]
    case _ v htype =>
      simp only [Except.ok.injEq] at h
      subst h
      have hsub : lookup (setKey d sub (.dict (setKey (removeKey inner "type") "type_" v))) sub
          = some (.dict (setKey (removeKey inner "type") "type_" v)) :=
        lookup_setKey_self _ _ _
      have hnone : lookup (setKey (removeKey inner "type") "type_" v) "type" = none := by
        rw [lookup_setKey_ne _ _ _ _ (by decide), lookup_removeKey_self]
      unfold renameTypeInSub
      rw [hsub]
      simp only [hnone]
  case _ s heq =>
    split at h
    case _ hc =>
      simp at h
    case _ hc =>
      simp only [Except.ok.injEq] at h
      subst h
      unfold renameTypeInSub
      rw [heq]
      simp [hc]
  case _ xs heq =>
    split at h
    case _ hc =>
      simp at h
    case _ hc =>
      simp only [Except.ok.injEq] at h
      subst h
      unfold renameTypeInSub
      rw [heq]
      simp [hc]
  · simp at h
  · simp at h

/-! Claim C1. -/

/-- C1 counterexample: the claim says every `type` field at any nesting
depth is renamed by every create function.  It is false at a concrete
input: `create_dataplex_zone` leaves a `type` key nested inside
`resource_spec` untouched (its payload equals the input, the nested
dictionary still has `type` and no `type_`), and `create_dataplex_asset`
leaves a top-level `type` key untouched. -/
theorem zone_translation_leaves_nested_type_counterexample :
    create_dataplex_zone_payload
        [("resource_spec", PyVal.dict [("type", PyVal.str "STORAGE_BUCKET")])]
      = [("resource_spec", PyVal.dict [("type", PyVal.str "STORAGE_BUCKET")])]
  ∧ lookup [("type", PyVal.str "STORAGE_BUCKET")] "type" = some (PyVal.str "STORAGE_BUCKET")
  ∧ lookup [("type", PyVal.str "STORAGE_BUCKET")] "type_" = none
  ∧ create_dataplex_asset_payload [("type", PyVal.str "RAW")]
      = .ok [("type", PyVal.str "RAW")] :=
  ⟨rfl, rfl, rfl, rfl⟩

/-- C1 (amended): each function renames `type` only at its single
hard-coded location — the zone functions at top level, the asset functions
inside `resource_spec`, the task functions inside `trigger_spec`; keys at
every other location are left unchanged. -/
theorem rename_applies_only_at_hardcoded_location
    (zone_details : Dict) (q : String) (h1 : q ≠ "type") (h2 : q ≠ "type_")
    (v : PyVal) (hv : lookup zone_details "type" = some v)
    (asset_details a2 : Dict) (qa : String)
    (ha : create_dataplex_asset_payload asset_details = .ok a2)
    (hqa : qa ≠ "resource_spec")
    (task_details t2 : Dict) (qt : String)
    (htk : create_dataplex_task_payload task_details = .ok t2)
    (hqt : qt ≠ "trigger_spec") :
    lookup (create_dataplex_zone_payload zone_details) q = lookup zone_details q
  ∧ lookup (create_dataplex_zone_payload zone_details) "type" = none
  ∧ lookup (create_dataplex_zone_payload zone_details) "type_" = some v
  ∧ lookup a2 qa = lookup asset_details qa
  ∧ lookup t2 qt = lookup task_details qt :=
  ⟨lookup_renameTypeTop_other zone_details q h1 h2,
   lookup_renameTypeTop_type zone_details,
   lookup_renameTypeTop_renamed zone_details v hv,
   renameTypeInSub_lookup_other "resource_spec" asset_details a2 qa ha hqa,
   renameTypeInSub_lookup_other "trigger_spec" task_details t2 qt htk hqt⟩

/-- C1 witness: the amended theorem applied at concrete configurations; in
particular the asset rename leaves the top-level `type` key alone. -/
theorem rename_applies_only_at_hardcoded_location_witness :
    lookup (create_dataplex_zone_payload
        [("type", PyVal.str "RAW"), ("display_name", PyVal.str "Z")]) "display_name"
      = lookup [("type", PyVal.str "RAW"), ("display_name", PyVal.str "Z")] "display_name"
  ∧ lookup (create_dataplex_zone_payload
        [("type", PyVal.str "RAW"), ("display_name", PyVal.str "Z")]) "type" = none
  ∧ lookup (create_dataplex_zone_payload
        [("type", PyVal.str "RAW"), ("display_name", PyVal.str "Z")]) "type_"
      = some (PyVal.str "RAW")
  ∧ lookup [("type", PyVal.str "X"),
        ("resource_spec", PyVal.dict [("type_", PyVal.str "B")])] "type"
      = lookup [("type", PyVal.str "X"),
        ("resource_spec", PyVal.dict [("type", PyVal.str "B")])] "type"
  ∧ lookup [("trigger_spec", PyVal.dict [("type_", PyVal.str "ON_DEMAND")]),
        ("spark", PyVal.dict [])] "spark"
      = lookup [("trigger_spec", PyVal.dict [("type", PyVal.str "ON_DEMAND")]),
        ("spark", PyVal.dict [])] "spark" :=
  rename_applies_only_at_hardcoded_location
    [("type", PyVal.str "RAW"), ("display_name", PyVal.str "Z")]
    "display_name" (by decide) (by decide) (PyVal.str "RAW") rfl
    [("type", PyVal.str "X"), ("resource_spec", PyVal.dict [("type", PyVal.str "B")])]
    [("type", PyVal.str "X"), ("resource_spec", PyVal.dict [("type_", PyVal.str "B")])]
    "type" rfl (by decide)
    [("trigger_spec", PyVal.dict [("type", PyVal.str "ON_DEMAND")]), ("spark", PyVal.dict [])]
    [("trigger_spec", PyVal.dict [("type_", PyVal.str "ON_DEMAND")]), ("spark", PyVal.dict [])]
    "spark" rfl (by decide)

/-! Claim C6. -/

/-- C6: on the zone configuration with a top-level `type` of `RAW` and a
`resource_spec` holding only `location_type`, `create_dataplex_zone`
renames the top-level `type` to `type_` and leaves `resource_spec`
unchanged; on the asset configuration whose `resource_spec` holds
`type = STORAGE_BUCKET`, `create_dataplex_asset` renames the nested `type`
to `type_` and leaves the top level otherwise unchanged. -/
theorem zone_and_asset_rename_examples :
    create_dataplex_zone_payload
        [("type", PyVal.str "RAW"),
         ("resource_spec", PyVal.dict [("location_type", PyVal.str "SINGLE_REGION")])]
      = [("resource_spec", PyVal.dict [("location_type", PyVal.str "SINGLE_REGION")]),
         ("type_", PyVal.str "RAW")]
  ∧ lookup (create_dataplex_zone_payload
        [("type", PyVal.str "RAW"),
         ("resource_spec", PyVal.dict [("location_type", PyVal.str "SINGLE_REGION")])])
        "resource_spec"
      = some (PyVal.dict [("location_type", PyVal.str "SINGLE_REGION")])
  ∧ create_dataplex_asset_payload
        [("resource_spec", PyVal.dict [("type", PyVal.str "STORAGE_BUCKET")])]
      = .ok [("resource_spec", PyVal.dict [("type_", PyVal.str "STORAGE_BUCKET")])] :=
  ⟨rfl, rfl, rfl⟩

/-! Claim C7. -/

/-- C7: the reserved-word rename is idempotent — applying the zone
functions' top-level rename twice equals applying it once, a mapping with
no `type` key (in particular one already carrying `type_`) is left
unchanged, and a successful nested rename (asset and task functions) is a
fixed point of a second application. -/
theorem reserved_word_rename_idempotent :
    (∀ d : Dict, create_dataplex_zone_payload (create_dataplex_zone_payload d)
        = create_dataplex_zone_payload d)
  ∧ (∀ d : Dict, lookup d "type" = none → create_dataplex_zone_payload d = d)
  ∧ (∀ d d2 : Dict, create_dataplex_asset_payload d = .ok d2 →
        create_dataplex_asset_payload d2 = .ok d2)
  ∧ (∀ d d2 : Dict, create_dataplex_task_payload d = .ok d2 →
        create_dataplex_task_payload d2 = .ok d2) :=
  ⟨fun d => renameTypeTop_idem d,
   fun d h => renameTypeTop_of_no_type d h,
   fun d d2 h => renameTypeInSub_idem "resource_spec" d d2 h,
   fun d d2 h => renameTypeInSub_idem "trigger_spec" d d2 h⟩

/-- C7 witness: the idempotence theorem applied at concrete
configurations, one already renamed and one renamed by a first
application. -/
theorem reserved_word_rename_idempotent_witness :
    create_dataplex_zone_payload [("type_", PyVal.str "RAW")] = [("type_", PyVal.str "RAW")]
  ∧ create_dataplex_asset_payload [("resource_spec", PyVal.dict [("type_", PyVal.str "B")])]
      = .ok [("resource_spec", PyVal.dict [("type_", PyVal.str "B")])]
  ∧ create_dataplex_task_payload [("trigger_spec", PyVal.dict [("type_", PyVal.str "ON_DEMAND")])]
      = .ok [("trigger_spec", PyVal.dict [("type_", PyVal.str "ON_DEMAND")])] :=
  ⟨reserved_word_rename_idempotent.2.1 [("type_", PyVal.str "RAW")] rfl,
   reserved_word_rename_idempotent.2.2.1
     [("resource_spec", PyVal.dict [("type", PyVal.str "B")])]
     [("resource_spec", PyVal.dict [("type_", PyVal.str "B")])] rfl,
   reserved_word_rename_idempotent.2.2.2
     [("trigger_spec", PyVal.dict [("type", PyVal.str "ON_DEMAND")])]
     [("trigger_spec", PyVal.dict [("type_", PyVal.str "ON_DEMAND")])] rfl⟩

/-! Claim C8. -/

/-- C8 counterexample: the claim says the caller's configuration mapping
is unchanged after the call.  It is false at a concrete input: after
`create_dataplex_zone` on a mapping with a `type` key, the caller's
dictionary differs from what was passed in. -/
theorem caller_config_mutated_counterexample :
    create_dataplex_zone_config_after [("type", PyVal.str "RAW")]
      ≠ [("type", PyVal.str "RAW")] := by
  intro h
  have h2 := congrArg (fun d => lookup d "type") h
  simp [create_dataplex_zone_config_after, create_dataplex_zone_payload,
        renameTypeTop, lookup, setKey, removeKey] at h2

/-- C8 (amended): the create/update functions mutate the caller's mapping
in place — after the call a `type` key at the function's hard-coded rename
location has been removed and `type_` carries its value, keys at other
locations are untouched, and a mapping with no `type` at that location is
left unchanged. -/
theorem caller_config_mutated_in_place
    (zone_details : Dict) (v : PyVal) (hv : lookup zone_details "type" = some v)
    (d0 : Dict) (h0 : lookup d0 "type" = none)
    (asset_details a2 : Dict)
    (ha : create_dataplex_asset_config_after asset_details = .ok a2)
    (qa : String) (hqa : qa ≠ "resource_spec") :
    lookup (create_dataplex_zone_config_after zone_details) "type" = none
  ∧ lookup (create_dataplex_zone_config_after zone_details) "type_" = some v
  ∧ create_dataplex_zone_config_after d0 = d0
  ∧ lookup a2 qa = lookup asset_details qa :=
  ⟨lookup_renameTypeTop_type zone_details,
   lookup_renameTypeTop_renamed zone_details v hv,
   renameTypeTop_of_no_type d0 h0,
   renameTypeInSub_lookup_other "resource_spec" asset_details a2 qa ha hqa⟩

/-- C8 witness: the in-place mutation theorem applied at concrete
configurations. -/
theorem caller_config_mutated_in_place_witness :
    lookup (create_dataplex_zone_config_after [("type", PyVal.str "RAW")]) "type" = none
  ∧ lookup (create_dataplex_zone_config_after [("type", PyVal.str "RAW")]) "type_"
      = some (PyVal.str "RAW")
  ∧ create_dataplex_zone_config_after [("display_name", PyVal.str "Z")]
      = [("display_name", PyVal.str "Z")]
  ∧ lookup [("resource_spec", PyVal.dict [("type_", PyVal.str "B")])] "display_name"
      = lookup [("resource_spec", PyVal.dict [("type", PyVal.str "B")])] "display_name" :=
  caller_config_mutated_in_place
    [("type", PyVal.str "RAW")] (PyVal.str "RAW") rfl
    [("display_name", PyVal.str "Z")] rfl
    [("resource_spec", PyVal.dict [("type", PyVal.str "B")])]
    [("resource_spec", PyVal.dict [("type_", PyVal.str "B")])] rfl
    "display_name" (by decide)

/-! Claim C2. -/

/-- C2 counterexample: the claim says no tool function ever propagates an
exception.  It is false at a concrete input: `search_dataplex_catalog`
with an empty `project_id` raises `ValueError` (the check sits outside the
`try` block). -/
theorem search_catalog_raises_on_empty_input_counterexample :
    search_dataplex_catalog "" "us-central1" "sales" (.ok [])
      = .error (.valueError "project_id, location_id, and query must be provided.") :=
  rfl

/-- C2 (amended): the dataplex service tool functions (here
`create_dataplex_lake`) always return a value, and on any exception they
return a dictionary with an `error` key; but `search_dataplex_catalog`
raises `ValueError` on an empty argument and swallows API errors into a
plain empty list with no `error` key, and `get_lichess_rating` propagates
every exception of its fetch/parse step. -/
theorem error_propagation_policy_mixed
    (project_id location lake_id : String) (lake_details : Dict)
    (clientExn constructExn : Option PyExn) (remote : Except PyExn Operation)
    (e : PyExn) (loc q p l u : String) (re : PyExn)
    (hp : p ≠ "") (hl : l ≠ "") (hq : q ≠ "") :
    (∃ v, (create_dataplex_lake_run project_id location lake_id lake_details
        clientExn constructExn remote).result = .ok v)
  ∧ (∃ m, (create_dataplex_lake_run project_id location lake_id lake_details
        none none (.error e)).result = .ok (.dict [("error", .str m)]))
  ∧ search_dataplex_catalog "" loc q (.ok [])
      = .error (.valueError "project_id, location_id, and query must be provided.")
  ∧ search_dataplex_catalog p l q (.error re) = .ok (.list [])
  ∧ hasErrorKey (.list []) = false
  ∧ get_lichess_rating u (.error re) = .error re := by
  refine ⟨?_, ?_, ?_, ?_, rfl, rfl⟩
  · rcases clientExn with _ | e1
    · rcases constructExn with _ | e2
      · rcases remote with op | er
        · exact ⟨_, rfl⟩
        · exact ⟨_, rfl⟩
      · exact ⟨_, rfl⟩
    · exact ⟨_, rfl⟩
  · cases e <;> exact ⟨_, rfl⟩
  · simp [search_dataplex_catalog]
  · simp [search_dataplex_catalog, hp, hl, hq]

/-- C2 witness: the amended theorem applied at concrete inputs; the
API-error branch of the catalog search returns a bare empty list. -/
theorem error_propagation_policy_mixed_witness :
    search_dataplex_catalog "proj" "us-central1" "sales" (.error (.otherExn "boom"))
      = .ok (.list [])
  ∧ get_lichess_rating "magnus" (.error (.otherExn "boom")) = .error (.otherExn "boom") :=
  ⟨(error_propagation_policy_mixed "p" "l" "lk" [] none none (.ok ⟨none, "op", "m"⟩)
      (.otherExn "x") "us-central1" "sales" "proj" "us-central1" "magnus"
      (.otherExn "boom") (by decide) (by decide) (by decide)).2.2.2.1,
   (error_propagation_policy_mixed "p" "l" "lk" [] none none (.ok ⟨none, "op", "m"⟩)
      (.otherExn "x") "us-central1" "sales" "proj" "us-central1" "magnus"
      (.otherExn "boom") (by decide) (by decide) (by decide)).2.2.2.2.2⟩

/-! Claim C3. -/

/-- C3 counterexample: the claim says an empty identifying string makes
the path-building step fail with an InvalidArgument-kind error before any
request is constructed and without a network call.  It is false at a
concrete input: `get_dataplex_lake` with an empty `lake_id` builds the
malformed path, constructs the request, performs the network call, and
returns whatever error the remote service raised. -/
theorem empty_id_no_local_failure_counterexample :
    (get_dataplex_lake_run "my-project" "us-central1" "" none
        (.error (.invalidArgument "Malformed name" "400 Malformed name"))).networkCalled = true
  ∧ (get_dataplex_lake_run "my-project" "us-central1" "" none
        (.error (.invalidArgument "Malformed name" "400 Malformed name"))).requestPath
      = some "projects/my-project/locations/us-central1/lakes/"
  ∧ (get_dataplex_lake_run "my-project" "us-central1" "" none
        (.error (.invalidArgument "Malformed name" "400 Malformed name"))).result
      = .ok (.dict [("error", .str "API Error getting lake: Malformed name")]) :=
  ⟨rfl, rfl, rfl⟩

/-- C3 (amended): identifying strings are never validated locally — for
every tuple, empty strings included, `get_dataplex_lake` and
`create_dataplex_lake` build the concatenated resource path, construct
the request, and perform the network call; a remote `InvalidArgument` is
returned as an error dictionary. -/
theorem empty_id_builds_path_and_calls_network
    (project_id location lake_id : String) (remote : Except PyExn Dict)
    (m r : String) (lake_details : Dict) (remoteC : Except PyExn Operation) :
    (get_dataplex_lake_run project_id location lake_id none remote).networkCalled = true
  ∧ (get_dataplex_lake_run project_id location lake_id none remote).requestPath
      = some (lake_path project_id location lake_id)
  ∧ (get_dataplex_lake_run project_id location lake_id none
        (.error (.invalidArgument m r))).result
      = .ok (.dict [("error", .str ("API Error getting lake: " ++ m))])
  ∧ (create_dataplex_lake_run project_id location lake_id lake_details
        none none remoteC).networkCalled = true
  ∧ (create_dataplex_lake_run project_id location lake_id lake_details
        none none remoteC).requestPath
      = some (common_location_path project_id location) :=
  ⟨rfl, rfl, rfl, rfl, rfl⟩

/-! Claim C4. -/

/-- C4 counterexample: the claim says an asset configuration without
`resource_spec` makes `create_dataplex_asset` fail with an
InvalidArgument-kind error instead of sending the request.  It is false
at a concrete input: the request is sent and, when the service accepts
it, the function returns a pending LRO dictionary with no error. -/
theorem missing_resource_spec_sent_unchecked_counterexample :
    (create_dataplex_asset_run "p" "us-central1" "lake" "zone" "asset1"
        [("display_name", PyVal.str "A")] none none
        (.ok ⟨none, "op-123", "meta"⟩)).networkCalled = true
  ∧ (create_dataplex_asset_run "p" "us-central1" "lake" "zone" "asset1"
        [("display_name", PyVal.str "A")] none none
        (.ok ⟨none, "op-123", "meta"⟩)).result
      = .ok (.dict [("status", PyVal.str "pending"),
                    ("operation_name", PyVal.str "op-123"),
                    ("metadata", PyVal.str "meta")]) :=
  ⟨rfl, rfl⟩

/-- C4 (amended): neither create function checks the required sub-objects
locally — an asset configuration without `resource_spec` and a task
configuration without any of `spark`, `notebook`, `sql_script` are sent
to the service unchecked, and a remote `InvalidArgument` is what comes
back, converted into an error dictionary. -/
theorem missing_subobject_not_validated
    (project_id location lake_id zone_id asset_id task_id : String)
    (asset_details : Dict) (h : lookup asset_details "resource_spec" = none)
    (remote : Except PyExn Operation) (m r : String)
    (task_details p2 : Dict)
    (ht : create_dataplex_task_payload task_details = .ok p2)
    (h1 : containsKey task_details "spark" = false)
    (h2 : containsKey task_details "notebook" = false)
    (h3 : containsKey task_details "sql_script" = false)
    (tremote : Except PyExn Operation) :
    (create_dataplex_asset_run project_id location lake_id zone_id asset_id
        asset_details none none remote).networkCalled = true
  ∧ (create_dataplex_asset_run project_id location lake_id zone_id asset_id
        asset_details none none (.error (.invalidArgument m r))).result
      = .ok (.dict [("error", .str ("Invalid argument: " ++ m))])
  ∧ (create_dataplex_task_run project_id location lake_id task_id
        task_details none none tremote).networkCalled = true := by
  have hp : create_dataplex_asset_payload asset_details = .ok asset_details := by
    unfold create_dataplex_asset_payload renameTypeInSub
    rw [h]
  refine ⟨?_, ?_, ?_⟩
  · simp [create_dataplex_asset_run, hp]
  · simp [create_dataplex_asset_run, hp, create_asset_error_dict,
          PyExn.isInvalidArgument, PyExn.message]
  · simp [create_dataplex_task_run, ht]

/-- C4 witness: the theorem applied at concrete configurations lacking
the required sub-objects. -/
theorem missing_subobject_not_validated_witness :
    (create_dataplex_asset_run "p" "us-central1" "lake" "zone" "asset1"
        [("display_name", PyVal.str "A")] none none
        (.ok ⟨none, "op-9", "m"⟩)).networkCalled = true
  ∧ (create_dataplex_asset_run "p" "us-central1" "lake" "zone" "asset1"
        [("display_name", PyVal.str "A")] none none
        (.error (.invalidArgument "resource_spec required" "400"))).result
      = .ok (.dict [("error", .str ("Invalid argument: " ++ "resource_spec required"))])
  ∧ (create_dataplex_task_run "p" "us-central1" "lake" "task1"
        [("trigger_spec", PyVal.dict [("type", PyVal.str "ON_DEMAND")])] none none
        (.ok ⟨none, "op-9", "m"⟩)).networkCalled = true :=
  missing_subobject_not_validated "p" "us-central1" "lake" "zone" "asset1" "task1"
    [("display_name", PyVal.str "A")] rfl (.ok ⟨none, "op-9", "m"⟩)
    "resource_spec required" "400"
    [("trigger_spec", PyVal.dict [("type", PyVal.str "ON_DEMAND")])]
    [("trigger_spec", PyVal.dict [("type_", PyVal.str "ON_DEMAND")])]
    rfl rfl rfl rfl (.ok ⟨none, "op-9", "m"⟩)

/-! Claim C5. -/

/-- Distinct prefixes make the terminal-state message and the generic
API-error message different strings, whatever the identifiers and the
remote message are. -/
theorem job_msg_ne_api_msg (s t : String) :
    "Job " ++ s ≠ "API Error cancelling job: " ++ t := by
  intro h
  have h2 := congrArg String.data h
  rw [String.data_append, String.data_append] at h2
  simp at h2

/-- C5: when the remote cancel call raises a `GoogleAPICallError` with
code 400 whose text contains (case-insensitively) `invalid state` or
`terminal state`, `cancel_dataplex_job` returns the terminal-state error
dictionary, and for every other `GoogleAPICallError` (other than
`NotFound`) it returns the generic API-error dictionary; the two results
are always distinct. -/
theorem cancel_job_terminal_state_distinct
    (project_id location lake_id task_id job_id : String) (e eg : PyExn)
    (he1 : e.isGoogleApiCallError = true) (he2 : e.code = 400)
    (he3 : strContains (lowerStr e.strRepr) "invalid state" = true
         ∨ strContains (lowerStr e.strRepr) "terminal state" = true)
    (hg1 : eg.isGoogleApiCallError = true) (hg2 : eg.isNotFound = false)
    (hg3 : (eg.code == 400
        && (strContains (lowerStr eg.strRepr) "invalid state"
            || strContains (lowerStr eg.strRepr) "terminal state")) = false) :
    cancel_dataplex_job project_id location lake_id task_id job_id (.error e)
      = .dict [("error", .str ("Job " ++ job_id ++ " is already in a terminal state."))]
  ∧ cancel_dataplex_job project_id location lake_id task_id job_id (.error eg)
      = .dict [("error", .str ("API Error cancelling job: " ++ eg.message))]
  ∧ cancel_dataplex_job project_id location lake_id task_id job_id (.error e)
      ≠ cancel_dataplex_job project_id location lake_id task_id job_id (.error eg) := by
  have henf : e.isNotFound = false := by
    cases e with
    | notFound m r => simp [PyExn.code] at he2
    | _ => rfl
  have p1 : cancel_dataplex_job project_id location lake_id task_id job_id (.error e)
      = .dict [("error", .str ("Job " ++ job_id ++ " is already in a terminal state."))] := by
    rcases he3 with h3 | h3 <;>
      simp [cancel_dataplex_job, henf, he1, he2, h3]
  have p2 : cancel_dataplex_job project_id location lake_id task_id job_id (.error eg)
      = .dict [("error", .str ("API Error cancelling job: " ++ eg.message))] := by
    simp [cancel_dataplex_job, hg2, hg1, hg3]
  refine ⟨p1, p2, ?_⟩
  rw [p1, p2]
  intro h
  have h4 : ("Job " ++ job_id ++ " is already in a terminal state.")
      = ("API Error cancelling job: " ++ eg.message) := by simpa using h
  rw [String.append_assoc] at h4
  exact job_msg_ne_api_msg _ _ h4

/-- C5 witness: the theorem applied to a concrete 400 invalid-state
failure and a concrete 500 failure of the same call. -/
theorem cancel_job_terminal_state_distinct_witness :
    cancel_dataplex_job "p" "us-central1" "lake" "task" "job-1"
        (.error (.invalidArgument "Bad state"
          "400 Job is in an Invalid State and cannot be cancelled"))
      = .dict [("error", .str ("Job " ++ "job-1" ++ " is already in a terminal state."))]
  ∧ cancel_dataplex_job "p" "us-central1" "lake" "task" "job-1"
        (.error (.googleApiCallError 500 "Internal error" "500 Internal error"))
      = .dict [("error", .str ("API Error cancelling job: " ++ "Internal error"))]
  ∧ cancel_dataplex_job "p" "us-central1" "lake" "task" "job-1"
        (.error (.invalidArgument "Bad state"
          "400 Job is in an Invalid State and cannot be cancelled"))
      ≠ cancel_dataplex_job "p" "us-central1" "lake" "task" "job-1"
        (.error (.googleApiCallError 500 "Internal error" "500 Internal error")) :=
  cancel_job_terminal_state_distinct "p" "us-central1" "lake" "task" "job-1"
    (.invalidArgument "Bad state" "400 Job is in an Invalid State and cannot be cancelled")
    (.googleApiCallError 500 "Internal error" "500 Internal error")
    rfl rfl (Or.inl (by decide)) rfl rfl (by decide)

/-! Claim C9. -/

/-- Folding a per-element append of a singleton collects the mapped
list. -/
theorem foldl_append_singleton (l : List Dict) (acc : List PyVal) :
    List.foldl (fun a c => a ++ [PyVal.dict c]) acc l = acc ++ l.map PyVal.dict := by
  induction l generalizing acc with
  | nil => simp
  | cons c rest ih => simp [List.foldl_cons, ih]

/-- The inner loop appends every cluster of the collection once. -/
theorem innerClusterLoop_eq (clusters : List Dict) (acc : List PyVal) :
    innerClusterLoop clusters acc = acc ++ clusters.map PyVal.dict :=
  foldl_append_singleton clusters acc

/-- Folding a constant append of `m` over `l` appends `m` once per
element of `l`. -/
theorem foldl_const_append (l : List Dict) (m acc : List PyVal) :
    List.foldl (fun a (_ : Dict) => a ++ m) acc l = acc ++ repList l.length m := by
  induction l generalizing acc with
  | nil => simp [repList]
  | cons c rest ih => simp [List.foldl_cons, ih, repList]

/-- The nested loops produce the whole collection once per outer
element. -/
theorem list_clusters_collect_eq (clusters : List Dict) :
    list_dataproc_clusters_async_collect clusters
      = repList clusters.length (clusters.map PyVal.dict) := by
  unfold list_dataproc_clusters_async_collect
  have h : (fun (acc : List PyVal) (_c : Dict) => innerClusterLoop clusters acc)
      = fun (acc : List PyVal) (_c : Dict) => acc ++ clusters.map PyVal.dict := by
    funext acc c
    exact innerClusterLoop_eq clusters acc
  rw [h, foldl_const_append]
  simp

/-- Length of a repeated list. -/
theorem repList_length (n : Nat) (m : List PyVal) :
    (repList n m).length = n * m.length := by
  induction n with
  | zero => simp [repList]
  | succ k ih => simp [repList, ih, Nat.succ_mul, Nat.add_comm]

/-- C9: the async cluster-listing function iterates the same paginated
collection inside its outer iteration over it, so on a collection of `n`
clusters it returns the whole collection once per outer element — `n * n`
entries in total — instead of each cluster exactly once. -/
theorem list_clusters_async_duplicates (clusters : List Dict) :
    list_dataproc_clusters_async_collect clusters
      = repList clusters.length (clusters.map PyVal.dict)
  ∧ (list_dataproc_clusters_async_collect clusters).length
      = clusters.length * clusters.length
  ∧ list_dataproc_clusters_async_run (.ok clusters)
      = .ok (.list (repList clusters.length (clusters.map PyVal.dict)))
  ∧ (list_dataproc_clusters_async_collect
        [[("cluster_name", PyVal.str "a")], [("cluster_name", PyVal.str "b")]]).length
      = 4 := by
  refine ⟨list_clusters_collect_eq clusters, ?_, ?_, ?_⟩
  · rw [list_clusters_collect_eq, repList_length]
    simp
  · simp [list_dataproc_clusters_async_run, list_clusters_collect_eq]
  · rfl

/-! Claim C10. -/

/-- C10: every call of `submit_dataproc_job`, whatever its arguments,
raises `NameError` on the very first statement — the module-level name
`job_client` it tests is never defined in `common_tools.py` — before any
validation or network access; and in the hypothetical environment where
`job_client` exists, a failing `submit_job` call makes the
`except InvalidArgument` clause raise a further `NameError`, since that
name is not imported in the module either. -/
theorem submit_job_raises_nameerror
    (project_id region cluster_name job_type : String) (job_details : Dict)
    (job_id_pref job_uuid : String) (jobClientTruthy : Bool)
    (remote : Except PyExn Dict) :
    submit_dataproc_job_run project_id region cluster_name job_type job_details
        job_id_pref dataproc_common_tools_globals jobClientTruthy job_uuid remote
      = { validationPerformed := false, networkCalled := false,
          result := .error (.nameError "job_client") }
  ∧ (submit_dataproc_job_run "p" "us-central1" "c" "pyspark"
        [("main_python_file_uri", PyVal.str "gs://b/x.py")] "agent-job"
        ("job_client" :: dataproc_common_tools_globals) true "abc12345"
        (.error (.otherExn "boom"))).result
      = .error (.nameError "InvalidArgument") :=
  ⟨rfl, rfl⟩
